import Mathlib

/-!
A shallow embedding of `static-server.js`

This file embeds the configuration resolution, validation, certificate
loading and the request-handling middleware pipeline of the
`static-server` repository, and proves the specification's claims about
them.

JavaScript values that flow through the validators are modelled by the
inductive type `JSValue` (strings, numbers, booleans, `null`,
`undefined`, and plain objects as association lists of own properties).
JavaScript numbers are modelled as rationals.  Asynchronous file reads
are modelled as `Except`-valued results.
-/

set_option autoImplicit false

namespace StaticServer

/-- A JavaScript value, as far as the validators inspect one: a string, a
number (modelled as a rational), a boolean, `null`, `undefined`, or an
object given by its own enumerable properties. -/
inductive JSValue where
  | vstr (s : String)
  | vnum (q : ℚ)
  | vbool (b : Bool)
  | vnull
  | vundefined
  | vobj (entries : List (String × JSValue))
  deriving Repr

/-- `validation.validateCertificateName`: accepts exactly the non-empty
strings, returning the input; every other value yields `null` (`none`). -/
def validateCertificateName : JSValue → Option String
  | .vstr s => if s ≠ "" then some s else none
  | _ => none

/-- `validation.validateHostName`: accepts exactly the non-empty strings. -/
def validateHostName : JSValue → Option String
  | .vstr s => if s ≠ "" then some s else none
  | _ => none

/-- `validation.validateRootFolder`: accepts exactly the non-empty strings. -/
def validateRootFolder : JSValue → Option String
  | .vstr s => if s ≠ "" then some s else none
  | _ => none

/-- `validation.validatePortNumber`: accepts a number equal to `80` or
`443` or lying in `[1024, 65535]`, returning it; any other number and any
non-number yields `null` (`none`). -/
def validatePortNumber : JSValue → Option ℚ
  | .vnum q =>
      if q = 80 ∨ q = 443 ∨ (1024 ≤ q ∧ q ≤ 65535) then some q else none
  | _ => none

/-- `validation.validateHeaders`: an object input is filtered down to its
entries whose key and (string) value are both non-empty; `Object.entries`
only yields string keys, so the key-type test of the source is always
true.  A non-object input yields `null` (`none`). -/
def validateHeaders : JSValue → Option (List (String × String))
  | .vobj entries =>
      some <| entries.filterMap fun p =>
        match p.2 with
        | .vstr s => if p.1 ≠ "" ∧ s ≠ "" then some (p.1, s) else none
        | _ => none
  | _ => none

/-- `validation.validateFileNameExtensionMediaTypes`: same filtering as
`validateHeaders`, applied to the extension / media-type object. -/
def validateFileNameExtensionMediaTypes : JSValue → Option (List (String × String))
  | .vobj entries =>
      some <| entries.filterMap fun p =>
        match p.2 with
        | .vstr s => if p.1 ≠ "" ∧ s ≠ "" then some (p.1, s) else none
        | _ => none
  | _ => none

/-- One layer of configuration (command-line or file), each field already
validated: `none` is the `null` / `undefined` of the source, meaning "not
provided or invalid". -/
structure RawConfig where
  CERTIFICATE_NAME : Option String
  FILE_NAME_EXTENSION_MEDIA_TYPES : Option (List (String × String))
  HEADERS : Option (List (String × String))
  HOST_NAME : Option String
  PORT_NUMBER : Option ℚ
  ROOT_FOLDER : Option String
  deriving Repr

/-- `utilities.readConfigurationFromCommandLineArguments`.  The raw
`process.argv` entries are given as `JSValue`s (`vundefined` when the
argument is absent); the `Number.parseInt` / `JSON.parse` steps applied to
`argv[4]`, `argv[6]` and `argv[7]` are abstracted as the already-parsed
values `portParsed`, `headersParsed` and `mediaTypesParsed`.  Note the
source validates the media-type argument with `validateHeaders`. -/
def readConfigurationFromCommandLineArguments
    (rootArg hostArg certArg : JSValue)
    (portParsed headersParsed mediaTypesParsed : JSValue) : RawConfig where
  CERTIFICATE_NAME := validateCertificateName certArg
  FILE_NAME_EXTENSION_MEDIA_TYPES := validateHeaders mediaTypesParsed
  HEADERS := validateHeaders headersParsed
  HOST_NAME := validateHostName hostArg
  PORT_NUMBER := validatePortNumber portParsed
  ROOT_FOLDER := validateRootFolder rootArg

/-- Property access `obj.key` on a parsed JSON object: the first own
property with that name, or `undefined`. -/
def jsGet (entries : List (String × JSValue)) (key : String) : JSValue :=
  (entries.lookup key).getD .vundefined

/-- `utilities.readConfigurationFromFile`: the argument is the result of
reading and `JSON.parse`-ing `static-server.configuration.json` (`none`
when the read or the parse failed).  A non-object parse result, like any
error, yields `null`; an object has its six known keys validated. -/
def readConfigurationFromFile (parsed : Option JSValue) : Option RawConfig :=
  match parsed with
  | some (.vobj entries) =>
      some
        { CERTIFICATE_NAME := validateCertificateName (jsGet entries "certificate_name")
          FILE_NAME_EXTENSION_MEDIA_TYPES :=
            validateFileNameExtensionMediaTypes (jsGet entries "file_name_extension_media_types")
          HEADERS := validateHeaders (jsGet entries "headers")
          HOST_NAME := validateHostName (jsGet entries "host_name")
          PORT_NUMBER := validatePortNumber (jsGet entries "port_number")
          ROOT_FOLDER := validateRootFolder (jsGet entries "root_folder") }
  | _ => none

/-- The built-in default settings (`DEFAULTS`). -/
structure Defaults where
  CERTIFICATE_NAME : String
  ENVIRONMENT : String
  FILE_NAME_EXTENSION_MEDIA_TYPES : List (String × String)
  HEADERS : List (String × String)
  HOST_NAME : String
  PORT_NUMBER : ℚ
  ROOT_FOLDER : String

/-- The `DEFAULTS` object of the source. -/
def DEFAULTS : Defaults where
  CERTIFICATE_NAME := "localhost"
  ENVIRONMENT := "development"
  FILE_NAME_EXTENSION_MEDIA_TYPES := []
  HEADERS := []
  HOST_NAME := "localhost"
  PORT_NUMBER := 8020
  ROOT_FOLDER := "."

/-- A model of Node's `path.resolve` against the current working
directory: absolute paths are kept, `"."` resolves to the directory
itself, any other relative path is joined onto it.  (`..`-segment
normalization is not needed by any claim and is not modelled.) -/
def pathResolve (cwd p : String) : String :=
  if p.startsWith "/" then p
  else if p = "." then cwd
  else cwd ++ "/" ++ p

/-- The resolved configuration record built by `utilities.getConfiguration`. -/
structure Config where
  CERTIFICATE_NAME : String
  ENVIRONMENT : String
  FILE_NAME_EXTENSION_MEDIA_TYPES : List (String × String)
  HEADERS : List (String × String)
  HOST_NAME : String
  PORT_NUMBER : ℚ
  ROOT_FOLDER : String
  deriving Repr

/-- `utilities.getConfiguration`: per field, command-line value (`??`)
file value (`??`) built-in default; the root folder is additionally
resolved with `path.resolve`.  `nodeEnv` is the `NODE_ENV` environment
variable. -/
def getConfiguration (cwd : String) (cmd : RawConfig) (file : Option RawConfig)
    (nodeEnv : Option String) : Config where
  CERTIFICATE_NAME :=
    ((cmd.CERTIFICATE_NAME).orElse fun _ => file.bind RawConfig.CERTIFICATE_NAME).getD
      DEFAULTS.CERTIFICATE_NAME
  ENVIRONMENT :=
    match nodeEnv with
    | some s => if s = "development" ∨ s = "production" then s else DEFAULTS.ENVIRONMENT
    | none => DEFAULTS.ENVIRONMENT
  FILE_NAME_EXTENSION_MEDIA_TYPES :=
    ((cmd.FILE_NAME_EXTENSION_MEDIA_TYPES).orElse fun _ =>
        file.bind RawConfig.FILE_NAME_EXTENSION_MEDIA_TYPES).getD
      DEFAULTS.FILE_NAME_EXTENSION_MEDIA_TYPES
  HEADERS :=
    ((cmd.HEADERS).orElse fun _ => file.bind RawConfig.HEADERS).getD DEFAULTS.HEADERS
  HOST_NAME :=
    ((cmd.HOST_NAME).orElse fun _ => file.bind RawConfig.HOST_NAME).getD DEFAULTS.HOST_NAME
  PORT_NUMBER :=
    ((cmd.PORT_NUMBER).orElse fun _ => file.bind RawConfig.PORT_NUMBER).getD
      DEFAULTS.PORT_NUMBER
  ROOT_FOLDER :=
    pathResolve cwd
      (((cmd.ROOT_FOLDER).orElse fun _ => file.bind RawConfig.ROOT_FOLDER).getD
        DEFAULTS.ROOT_FOLDER)

/-- A Node.js I/O error, identified by its `code` property. -/
structure IOErr where
  code : String
  deriving Repr, DecidableEq

/-- The certificate bundle returned by `utilities.readCertificates`, in the
field order of the source's return object. -/
structure CertificateBundle where
  certificate : Option String
  certificateSigningRequest : Option String
  privateKey : Option String
  deriving Repr, DecidableEq

/-- The single rejection surfaced by `Promise.all` over the three reads.
`Promise.all` rejects with one error; this model determinizes "the first
rejection" as the first failing read in argument order. -/
def firstError3 (r1 r2 r3 : Except IOErr String) : Option IOErr :=
  match r1, r2, r3 with
  | .error e, _, _ => some e
  | .ok _, .error e, _ => some e
  | .ok _, .ok _, .error e => some e
  | .ok _, .ok _, .ok _ => none

/-- `utilities.readCertificates`, as a function of the results of the
three file reads (`.key`, `.csr`, `.crt` in that order).  All three
succeeding yields the populated bundle; otherwise the one caught error is
consumed (all-`null` bundle) when its code is `ENOENT` and rethrown
otherwise. -/
def readCertificates (keyRead csrRead crtRead : Except IOErr String) :
    Except IOErr CertificateBundle :=
  match keyRead, csrRead, crtRead with
  | .ok privateKey, .ok csr, .ok cert =>
      .ok { certificate := cert, certificateSigningRequest := csr, privateKey := privateKey }
  | _, _, _ =>
      match firstError3 keyRead csrRead crtRead with
      | some e => if e.code ≠ "ENOENT" then .error e
                  else .ok { certificate := none, certificateSigningRequest := none,
                             privateKey := none }
      | none => .ok { certificate := none, certificateSigningRequest := none,
                      privateKey := none }

/-- `httpsEnabled`: all three certificate parts are non-`null`. -/
def httpsEnabled (privateKey certificateSigningRequest certificate : Option String) : Bool :=
  privateKey.isSome && certificateSigningRequest.isSome && certificate.isSome

/-- The kind of Node server constructed for the `Koa` callback. -/
inductive ServerKind where
  | httpsServer
  | httpServer
  deriving Repr, DecidableEq

/-- The `server` constant: a TLS server when `httpsEnabled`, else a plain
HTTP server. -/
def createdServer (privateKey certificateSigningRequest certificate : Option String) :
    ServerKind :=
  if httpsEnabled privateKey certificateSigningRequest certificate then .httpsServer
  else .httpServer

/-! JavaScript string operations:

The middleware inspects the request path with `String.prototype.includes`,
`String.prototype.endsWith` and `slice(lastIndexOf('.') + 1)`.  They are
embedded over the underlying character list so that concrete instances
evaluate inside the kernel. -/

/-- JS `s.includes(c)` for a single character. -/
def includesChar (s : String) (c : Char) : Bool :=
  s.data.contains c

/-- JS `s.endsWith(c)` for a one-character suffix: the last character of
`s` is `c`. -/
def endsWithChar (s : String) (c : Char) : Bool :=
  s.data.getLast? == some c

/-- JS `s.slice(s.lastIndexOf('.') + 1)` under the assumption that `s`
contains a `'.'`: the substring after the last `'.'`. -/
def afterLastDot (s : String) : String :=
  ⟨(s.data.reverse.takeWhile fun c => c ≠ '.').reverse⟩

/-- The file name extension of a request path, as computed by the
content-type middleware: the substring after the last `'.'` when the path
includes one, and `null` (`none`) otherwise. -/
def fileNameExtension (path : String) : Option String :=
  if includesChar path '.' then some (afterLastDot path) else none

/-! The request pipeline. -/

/-- The request half of the Koa context: client-supplied data no stage
mutates. -/
structure Request where
  path : String
  method : String
  ifNoneMatch : Option String
  deriving Repr, DecidableEq

/-- The response half of the Koa context.  `explicitStatus` is Koa's
`_explicitStatus` flag: it records that some stage assigned the status, so
that serving a body no longer resets it to `200`. -/
structure Response where
  status : Nat
  explicitStatus : Bool
  headers : List (String × String)
  body : Option String
  deriving Repr, DecidableEq

/-- Setting a response header (Koa `ctx.set(name, value)`): any existing
value for the same name is overwritten. -/
def setHeader (hs : List (String × String)) (n v : String) : List (String × String) :=
  (n, v) :: hs.filter fun p => p.1 != n

/-- Reading a response header. -/
def getHeader (hs : List (String × String)) (n : String) : Option String :=
  (hs.find? fun p => p.1 == n).map Prod.snd

/-- Koa `ctx.set(object)`: sets every name/value pair of the object. -/
def setHeaders (hs : List (String × String)) (toSet : List (String × String)) :
    List (String × String) :=
  toSet.foldl (fun acc p => setHeader acc p.1 p.2) hs

/-- The response state Koa initializes for every request: status `404`,
not explicitly assigned, no headers, `null` body. -/
def initialResponse : Response where
  status := 404
  explicitStatus := false
  headers := []
  body := none

/-- Koa `ctx.redirect(url)`: sets the `Location` header, assigns status
`302`, and installs a plain-text redirect notice body. -/
def redirect (r : Response) (url : String) : Response where
  status := 302
  explicitStatus := true
  headers := setHeader r.headers "Location" url
  body := some ("Redirecting to " ++ url ++ ".")

/-- A file-system node: a directory, or a regular file with its content
and a modification timestamp. -/
inductive FsNode where
  | dir
  | file (content : String) (mtime : Nat)
  deriving Repr, DecidableEq

/-- The file system seen through `fs.stat` and the static-file stage: a
map from paths to nodes, or to an I/O error (`ENOENT` for absent paths). -/
structure FileSystem where
  stat : String → Except IOErr FsNode

/-- The pre-`next` work of the directory-redirect middleware: when the
path includes no `'.'` and does not end in `'/'`, the path is stat-ed
under the root folder and a trailing-slash redirect is issued if it is a
directory.  A failing stat is consumed (`ENOENT` silently, anything else
after logging), leaving the response untouched. -/
def directoryRedirectPre (fs : FileSystem) (rootFolder path : String) (r : Response) :
    Response :=
  if !includesChar path '.' && !endsWithChar path '/' then
    match fs.stat (rootFolder ++ path) with
    | .ok .dir => redirect r (path ++ "/")
    | _ => r
  else r

/-- The directory-redirect middleware.  Note that the source awaits
`next()` unconditionally, after the `if` block — also when a redirect was
issued. -/
def directoryRedirectStage (fs : FileSystem) (rootFolder path : String)
    (next : Response → Response) (r : Response) : Response :=
  next (directoryRedirectPre fs rootFolder path r)

/-- Modelled from the spec: the freshness test of the external
`koa-conditional-get` package (Koa `ctx.fresh`) — a `GET` request whose
`If-None-Match` validator equals the `ETag` of a success (2xx) response. -/
def freshCheck (req : Request) (r : Response) : Bool :=
  (req.method == "GET")
    && decide (200 ≤ r.status) && decide (r.status < 300)
    && match req.ifNoneMatch, getHeader r.headers "ETag" with
       | some inm, some tag => inm == tag
       | _, _ => false

/-- Modelled from the spec: the external `koa-conditional-get` stage —
after the rest of the chain has produced the response, an unchanged
resource short-circuits to `304` with no body. -/
def conditionalGetStage (req : Request) (next : Response → Response) (r : Response) :
    Response :=
  if freshCheck req (next r) then
    { next r with status := 304, explicitStatus := true, body := none }
  else next r

/-- Modelled from the spec: the deterministic entity tag the external
`@koa/etag` package computes from the response body (length and content
stand in for the real hash; only determinism matters to the claims). -/
def computeEtag (body : String) : String :=
  "\"" ++ toString body.length ++ "-" ++ body ++ "\""

/-- Modelled from the spec: the external `@koa/etag` stage — after the
rest of the chain has run, a success (2xx) response carrying a body gets
an `ETag` header computed from that body. -/
def etagStage (next : Response → Response) (r : Response) : Response :=
  match (next r).body with
  | some b =>
      if 200 ≤ (next r).status ∧ (next r).status < 300 then
        { next r with headers := setHeader (next r).headers "ETag" (computeEtag b) }
      else next r
  | none => next r

/-- The header-injection middleware: sets every configured header on the
response, then invokes the rest of the chain. -/
def headerInjectionStage (configuredHeaders : List (String × String))
    (next : Response → Response) (r : Response) : Response :=
  next { r with headers := setHeaders r.headers configuredHeaders }

/-- The content-type middleware: invokes the rest of the chain first, then
— unless the request path ends in `'/'` — assigns `ctx.type` from the file
name extension: no extension gives `text/plain`, a mapped extension gives
the configured media type, an unmapped extension is assigned as-is (which
Koa resolves through its own extension-based media-type lookup).  The
`ctx.type` assignment is modelled as writing the `Content-Type` header
with the assigned token; Koa's charset suffixing and media-type table are
below the granularity of the claims. -/
def contentTypeStage (mediaTypes : List (String × String)) (path : String)
    (next : Response → Response) (r : Response) : Response :=
  if endsWithChar path '/' then next r
  else
    match fileNameExtension path with
    | none =>
        { next r with headers := setHeader (next r).headers "Content-Type" "text/plain" }
    | some ext =>
        match mediaTypes.lookup ext with
        | some mediaType =>
            { next r with headers := setHeader (next r).headers "Content-Type" mediaType }
        | none =>
            { next r with headers := setHeader (next r).headers "Content-Type" ext }

/-- Marks a response as carrying a served file (Koa: assigning `ctx.body`
sets the status to `200` only when no stage assigned one explicitly). -/
def serveFile (content : String) (mtime : Nat) (r : Response) : Response where
  status := if r.explicitStatus then r.status else 200
  explicitStatus := true
  headers :=
    setHeader (setHeader r.headers "Content-Length" (toString content.length))
      "Last-Modified" (toString mtime)
  body := some content

/-- The not-found outcome of the static-file stage, modelled from the
spec: a `404` is produced when no matching file exists and no earlier
stage has already determined the response. -/
def notFoundResponse (r : Response) : Response :=
  if r.explicitStatus then r
  else { r with status := 404, body := some "Not Found" }

/-- Modelled from the spec: the terminal static-file stage (the external
`@koa/send` package) — resolves the request path against the root folder,
serves a directory through its `index.html`, and responds `404` when no
matching file exists. -/
def staticFileStage (fs : FileSystem) (rootFolder path : String) (r : Response) : Response :=
  match fs.stat (rootFolder ++ path) with
  | .ok (.file content mtime) => serveFile content mtime r
  | .ok .dir =>
      match fs.stat (rootFolder ++ path
          ++ (if endsWithChar path '/' then "index.html" else "/index.html")) with
      | .ok (.file content mtime) => serveFile content mtime r
      | _ => notFoundResponse r
  | _ => notFoundResponse r

/-- The access-log middleware: awaits the rest of the chain, then logs;
logging is outside the model. -/
def accessLogStage (next : Response → Response) (r : Response) : Response :=
  next r

/-- The full middleware chain, in the registration order of the source:
access log, directory redirect, conditional GET, ETag, header injection
(only when custom headers are configured), content type, static file. -/
def pipeline (cfg : Config) (fs : FileSystem) (req : Request) : Response :=
  let staticChain : Response → Response :=
    staticFileStage fs cfg.ROOT_FOLDER req.path
  let ctypeChain : Response → Response :=
    contentTypeStage cfg.FILE_NAME_EXTENSION_MEDIA_TYPES req.path staticChain
  let injChain : Response → Response :=
    if cfg.HEADERS.isEmpty then ctypeChain
    else headerInjectionStage cfg.HEADERS ctypeChain
  let etagChain : Response → Response := etagStage injChain
  let cgChain : Response → Response := conditionalGetStage req etagChain
  let redirectChain : Response → Response :=
    directoryRedirectStage fs cfg.ROOT_FOLDER req.path cgChain
  accessLogStage redirectChain initialResponse

/-- The response of the sub-chain the conditional-GET stage wraps (it
depends on the request only through the path). -/
def innerResponse (cfg : Config) (fs : FileSystem) (path : String) : Response :=
  etagStage
    (if cfg.HEADERS.isEmpty then
        contentTypeStage cfg.FILE_NAME_EXTENSION_MEDIA_TYPES path
          (staticFileStage fs cfg.ROOT_FOLDER path)
      else
        headerInjectionStage cfg.HEADERS
          (contentTypeStage cfg.FILE_NAME_EXTENSION_MEDIA_TYPES path
            (staticFileStage fs cfg.ROOT_FOLDER path)))
    (directoryRedirectPre fs cfg.ROOT_FOLDER path initialResponse)

/-! Concrete instances for evaluation. -/

/-- A small concrete file system: a directory `/root/sub` (with no index
document), a file `/root/file.txt`, and a directory `/root/v1.2/notes`
whose path contains a `'.'` in a parent segment; everything else is
absent. -/
def demoFs : FileSystem where
  stat p :=
    if p == "/root/sub" then .ok .dir
    else if p == "/root/file.txt" then .ok (.file "hello" 7)
    else if p == "/root/v1.2/notes" then .ok .dir
    else .error ⟨"ENOENT"⟩

/-- A concrete configuration with no custom headers and one configured
media type. -/
def demoCfg : Config where
  CERTIFICATE_NAME := "localhost"
  ENVIRONMENT := "development"
  FILE_NAME_EXTENSION_MEDIA_TYPES := [("css", "text/css")]
  HEADERS := []
  HOST_NAME := "localhost"
  PORT_NUMBER := 8020
  ROOT_FOLDER := "/root"

/-- `demoCfg` with a custom `Content-Type` response header configured. -/
def demoCfgCustomType : Config :=
  { demoCfg with HEADERS := [("Content-Type", "application/x-custom")] }

/-- `demoCfg` with the spec's `X-Test: 1` custom header configured. -/
def demoCfgXTest : Config :=
  { demoCfg with HEADERS := [("X-Test", "1")] }

/-- The parsed demo configuration file: it provides only `host_name`. -/
def demoFileParsed : Option JSValue :=
  some (.vobj [("host_name", .vstr "filehost")])

/-! Header-map lemmas. -/

theorem getHeader_setHeader_self (hs : List (String × String)) (n v : String) :
    getHeader (setHeader hs n v) n = some v := by
  simp [getHeader, setHeader, List.find?_cons]

theorem getHeader_filter_ne {n m : String} (h : m ≠ n) (hs : List (String × String)) :
    getHeader (hs.filter fun p => p.1 != n) m = getHeader hs m := by
  induction hs with
  | nil => rfl
  | cons p t ih =>
      by_cases hm : p.1 = m
      · have hkt : (p.1 != n) = true := by simp [hm, h]
        have hmt : (p.1 == m) = true := by simp [hm]
        simp only [List.filter_cons, hkt, if_true]
        unfold getHeader
        rw [List.find?_cons, List.find?_cons]
        simp only [hmt]
      · by_cases hk : p.1 = n
        · have hkf : (p.1 != n) = false := by simp [hk]
          have hmf : (p.1 == m) = false := by simp [hm]
          simp only [List.filter_cons, hkf, Bool.false_eq_true, if_false]
          rw [ih]
          unfold getHeader
          rw [List.find?_cons]
          simp only [hmf]
        · have hkt : (p.1 != n) = true := by simp [hk]
          have hmf : (p.1 == m) = false := by simp [hm]
          simp only [List.filter_cons, hkt, if_true]
          unfold getHeader
          rw [List.find?_cons, List.find?_cons]
          simp only [hmf]
          exact ih

theorem getHeader_setHeader_ne {n m : String} (h : m ≠ n) (hs : List (String × String))
    (v : String) : getHeader (setHeader hs n v) m = getHeader hs m := by
  have hnm : (n == m) = false := by simp [Ne.symm h]
  rw [setHeader, getHeader, List.find?_cons]
  simp only [hnm]
  exact getHeader_filter_ne h hs

theorem setHeaders_cons (hs : List (String × String)) (p : String × String)
    (ps : List (String × String)) :
    setHeaders hs (p :: ps) = setHeaders (setHeader hs p.1 p.2) ps := rfl

theorem getHeader_setHeaders_of_forall_ne {n : String} (ps : List (String × String))
    (h : ∀ p ∈ ps, p.1 ≠ n) (hs : List (String × String)) :
    getHeader (setHeaders hs ps) n = getHeader hs n := by
  induction ps generalizing hs with
  | nil => rfl
  | cons p t ih =>
      rw [setHeaders_cons, ih (fun q hq => h q (List.mem_cons_of_mem p hq))]
      exact getHeader_setHeader_ne (Ne.symm (h p (List.mem_cons_self p t))) hs p.2

theorem getHeader_setHeaders_mem {n v : String} (ps : List (String × String))
    (hmem : (n, v) ∈ ps) (hnd : (ps.map Prod.fst).Nodup) (hs : List (String × String)) :
    getHeader (setHeaders hs ps) n = some v := by
  induction ps generalizing hs with
  | nil => cases hmem
  | cons p t ih =>
      rw [setHeaders_cons]
      rw [List.map_cons] at hnd
      have hnd' := List.nodup_cons.mp hnd
      rcases List.mem_cons.mp hmem with heq | ht
      · have hall : ∀ q ∈ t, q.1 ≠ n := by
          intro q hq hqn
          apply hnd'.1
          have hq1 : q.1 ∈ t.map Prod.fst := List.mem_map_of_mem Prod.fst hq
          have hpn : p.1 = n := by rw [← heq]
          rw [hpn, ← hqn]
          exact hq1
        rw [getHeader_setHeaders_of_forall_ne t hall, ← heq]
        exact getHeader_setHeader_self hs n v
      · exact ih ht hnd'.2 _

/-! Stage lemmas. -/

theorem contentTypeStage_status (mediaTypes : List (String × String)) (path : String)
    (next : Response → Response) (r : Response) :
    (contentTypeStage mediaTypes path next r).status = (next r).status := by
  unfold contentTypeStage
  split
  · rfl
  · split
    · rfl
    · split <;> rfl

theorem contentTypeStage_explicit (mediaTypes : List (String × String)) (path : String)
    (next : Response → Response) (r : Response) :
    (contentTypeStage mediaTypes path next r).explicitStatus = (next r).explicitStatus := by
  unfold contentTypeStage
  split
  · rfl
  · split
    · rfl
    · split <;> rfl

theorem contentTypeStage_getHeader (mediaTypes : List (String × String)) (path : String)
    (next : Response → Response) (r : Response) {n : String} (h : n ≠ "Content-Type") :
    getHeader (contentTypeStage mediaTypes path next r).headers n =
      getHeader (next r).headers n := by
  unfold contentTypeStage
  split
  · rfl
  · split
    · exact getHeader_setHeader_ne h _ _
    · split <;> exact getHeader_setHeader_ne h _ _

theorem contentTypeStage_ct_of_no_ext (mediaTypes : List (String × String)) (path : String)
    (next : Response → Response) (r : Response)
    (hslash : endsWithChar path '/' = false) (hdot : includesChar path '.' = false) :
    getHeader (contentTypeStage mediaTypes path next r).headers "Content-Type" =
      some "text/plain" := by
  unfold contentTypeStage
  simp [hslash, fileNameExtension, hdot, getHeader_setHeader_self]

theorem staticFileStage_status_of_explicit (fs : FileSystem) (rootFolder path : String)
    (r : Response) (h : r.explicitStatus = true) :
    (staticFileStage fs rootFolder path r).status = r.status ∧
    (staticFileStage fs rootFolder path r).explicitStatus = true := by
  unfold staticFileStage
  split
  · simp [serveFile, h]
  · split
    · simp [serveFile, h]
    · simp [notFoundResponse, h]
  · simp [notFoundResponse, h]

theorem staticFileStage_getHeader (fs : FileSystem) (rootFolder path : String) (r : Response)
    {n : String} (h1 : n ≠ "Content-Length") (h2 : n ≠ "Last-Modified") :
    getHeader (staticFileStage fs rootFolder path r).headers n = getHeader r.headers n := by
  unfold staticFileStage
  split
  · show getHeader (serveFile _ _ r).headers n = _
    unfold serveFile
    rw [getHeader_setHeader_ne h2, getHeader_setHeader_ne h1]
  · split
    · show getHeader (serveFile _ _ r).headers n = _
      unfold serveFile
      rw [getHeader_setHeader_ne h2, getHeader_setHeader_ne h1]
    · unfold notFoundResponse
      split <;> rfl
  · unfold notFoundResponse
    split <;> rfl

theorem etagStage_of_not_success (next : Response → Response) (r : Response)
    (h : ¬(200 ≤ (next r).status ∧ (next r).status < 300)) :
    etagStage next r = next r := by
  unfold etagStage
  split
  · rw [if_neg h]
  · rfl

theorem etagStage_getHeader (next : Response → Response) (r : Response) {n : String}
    (h : n ≠ "ETag") :
    getHeader (etagStage next r).headers n = getHeader (next r).headers n := by
  unfold etagStage
  split
  · split
    · exact getHeader_setHeader_ne h _ _
    · rfl
  · rfl

theorem conditionalGetStage_headers (req : Request) (next : Response → Response)
    (r : Response) :
    (conditionalGetStage req next r).headers = (next r).headers := by
  unfold conditionalGetStage
  split <;> rfl

theorem freshCheck_of_not_success (req : Request) (r : Response)
    (h : ¬(200 ≤ r.status ∧ r.status < 300)) : freshCheck req r = false := by
  unfold freshCheck
  rcases Classical.em (200 ≤ r.status) with h1 | h1
  · have h2 : ¬ r.status < 300 := fun hc => h ⟨h1, hc⟩
    simp [h2]
  · simp [h1]

theorem conditionalGetStage_of_not_success (req : Request) (next : Response → Response)
    (r : Response) (h : ¬(200 ≤ (next r).status ∧ (next r).status < 300)) :
    conditionalGetStage req next r = next r := by
  unfold conditionalGetStage
  rw [freshCheck_of_not_success req (next r) h]
  rfl

theorem pipeline_eq (cfg : Config) (fs : FileSystem) (req : Request) :
    pipeline cfg fs req =
      (if freshCheck req (innerResponse cfg fs req.path) then
        { innerResponse cfg fs req.path with
            status := 304, explicitStatus := true, body := none }
      else innerResponse cfg fs req.path) := rfl

theorem redirect_explicit (r : Response) (url : String) :
    (redirect r url).explicitStatus = true := rfl

theorem innerResponse_redirect (cfg : Config) (fs : FileSystem) (path : String)
    (hdot : includesChar path '.' = false)
    (hslash : endsWithChar path '/' = false)
    (hdir : fs.stat (cfg.ROOT_FOLDER ++ path) = .ok .dir)
    (hloc : ∀ p ∈ cfg.HEADERS, p.1 ≠ "Location") :
    (innerResponse cfg fs path).status = 302 ∧
    getHeader (innerResponse cfg fs path).headers "Location" = some (path ++ "/") ∧
    getHeader (innerResponse cfg fs path).headers "Content-Type" = some "text/plain" := by
  have hpre : directoryRedirectPre fs cfg.ROOT_FOLDER path initialResponse =
      redirect initialResponse (path ++ "/") := by
    unfold directoryRedirectPre
    rw [hdot, hslash, hdir]
    simp
  have step : ∀ r' : Response, r'.explicitStatus = true → r'.status = 302 →
      getHeader r'.headers "Location" = some (path ++ "/") →
      ((contentTypeStage cfg.FILE_NAME_EXTENSION_MEDIA_TYPES path
          (staticFileStage fs cfg.ROOT_FOLDER path) r').status = 302 ∧
       getHeader (contentTypeStage cfg.FILE_NAME_EXTENSION_MEDIA_TYPES path
          (staticFileStage fs cfg.ROOT_FOLDER path) r').headers "Location" =
         some (path ++ "/") ∧
       getHeader (contentTypeStage cfg.FILE_NAME_EXTENSION_MEDIA_TYPES path
          (staticFileStage fs cfg.ROOT_FOLDER path) r').headers "Content-Type" =
         some "text/plain") := by
    intro r' hexp hst hlocr
    refine ⟨?_, ?_, ?_⟩
    · rw [contentTypeStage_status,
        (staticFileStage_status_of_explicit fs _ path r' hexp).1, hst]
    · rw [contentTypeStage_getHeader _ _ _ _ (by decide),
        staticFileStage_getHeader _ _ _ _ (by decide) (by decide), hlocr]
    · exact contentTypeStage_ct_of_no_ext _ _ _ _ hslash hdot
  unfold innerResponse
  rw [hpre]
  cases hH : cfg.HEADERS.isEmpty with
  | true =>
      simp only [hH, if_true]
      have h := step (redirect initialResponse (path ++ "/")) rfl rfl
        (getHeader_setHeader_self _ _ _)
      rw [etagStage_of_not_success _ _ (by rw [h.1]; omega)]
      exact h
  | false =>
      simp only [hH, Bool.false_eq_true, if_false]
      unfold headerInjectionStage
      have h := step
        { redirect initialResponse (path ++ "/") with
            headers := setHeaders (redirect initialResponse (path ++ "/")).headers
              cfg.HEADERS }
        rfl rfl
        (by
          rw [show ({ redirect initialResponse (path ++ "/") with
              headers := setHeaders (redirect initialResponse (path ++ "/")).headers
                cfg.HEADERS } : Response).headers =
            setHeaders (redirect initialResponse (path ++ "/")).headers cfg.HEADERS from rfl]
          rw [getHeader_setHeaders_of_forall_ne cfg.HEADERS hloc]
          exact getHeader_setHeader_self _ _ _)
      rw [etagStage_of_not_success _ _ (by rw [h.1]; omega)]
      exact h

theorem pipeline_redirect_case (cfg : Config) (fs : FileSystem) (req : Request)
    (hdot : includesChar req.path '.' = false)
    (hslash : endsWithChar req.path '/' = false)
    (hdir : fs.stat (cfg.ROOT_FOLDER ++ req.path) = .ok .dir)
    (hloc : ∀ p ∈ cfg.HEADERS, p.1 ≠ "Location") :
    (pipeline cfg fs req).status = 302 ∧
    getHeader (pipeline cfg fs req).headers "Location" = some (req.path ++ "/") ∧
    getHeader (pipeline cfg fs req).headers "Content-Type" = some "text/plain" := by
  obtain ⟨h1, h2, h3⟩ := innerResponse_redirect cfg fs req.path hdot hslash hdir hloc
  have hfresh : freshCheck req (innerResponse cfg fs req.path) = false :=
    freshCheck_of_not_success _ _ (by rw [h1]; omega)
  rw [pipeline_eq, hfresh]
  simp only [Bool.false_eq_true, if_false]
  exact ⟨h1, h2, h3⟩

/-! Claim theorems. -/

/-- Claim C1: For every request whose path does not end in `'/'`, after the rest
of the chain has run (the theorem is stated for an arbitrary `next`, so the
value set is independent of — and thereby overrides — whatever the
static-file stage produced): a path containing no `'.'` gets
`Content-Type: text/plain`; an extension that is a key of the configured
extension/media-type map (case-sensitive, exact match) gets exactly the
configured media type; an unmapped extension is assigned as the bare
extension token, which delegates the header value to the runtime's
extension-based media-type lookup.  For every path ending in `'/'` the
stage performs no override at all. -/
theorem contentType_stage_spec (mediaTypes : List (String × String)) (path : String)
    (next : Response → Response) (r : Response) :
    (endsWithChar path '/' = true → contentTypeStage mediaTypes path next r = next r) ∧
    (endsWithChar path '/' = false → includesChar path '.' = false →
      getHeader (contentTypeStage mediaTypes path next r).headers "Content-Type" =
        some "text/plain") ∧
    (∀ ext mediaType, endsWithChar path '/' = false → fileNameExtension path = some ext →
      mediaTypes.lookup ext = some mediaType →
      getHeader (contentTypeStage mediaTypes path next r).headers "Content-Type" =
        some mediaType) ∧
    (∀ ext, endsWithChar path '/' = false → fileNameExtension path = some ext →
      mediaTypes.lookup ext = none →
      getHeader (contentTypeStage mediaTypes path next r).headers "Content-Type" =
        some ext) := by
  refine ⟨?_, ?_, ?_, ?_⟩
  · intro h
    unfold contentTypeStage
    rw [h]
    simp
  · intro h1 h2
    exact contentTypeStage_ct_of_no_ext _ _ _ _ h1 h2
  · intro ext mediaType h1 h2 h3
    unfold contentTypeStage
    rw [h1]
    simp only [Bool.false_eq_true, if_false, h2, h3]
    exact getHeader_setHeader_self _ _ _
  · intro ext h1 h2 h3
    unfold contentTypeStage
    rw [h1]
    simp only [Bool.false_eq_true, if_false, h2, h3]
    exact getHeader_setHeader_self _ _ _

/-- Witness for **C1** at concrete inputs: with `css ↦ text/css` configured,
a request for `/style.css` receives `Content-Type: text/css`, and a request
for a path ending in `'/'` is untouched. -/
theorem contentType_stage_spec_witness :
    getHeader (contentTypeStage [("css", "text/css")] "/style.css" (fun r => r)
        initialResponse).headers "Content-Type" = some "text/css" ∧
    contentTypeStage [("css", "text/css")] "/sub/" (fun r => r) initialResponse =
      initialResponse :=
  ⟨(contentType_stage_spec [("css", "text/css")] "/style.css" (fun r => r)
        initialResponse).2.2.1 "css" "text/css" (by decide) (by decide) (by decide),
   (contentType_stage_spec [("css", "text/css")] "/sub/" (fun r => r)
        initialResponse).1 (by decide)⟩

/-- Claim C2: For every request whose path contains no `'.'` and does not end
in `'/'`, and which resolves to an existing directory under the root folder,
the final response of the pipeline has status `302` and a `Location` header
equal to the original path with a single `'/'` appended (provided the
configuration does not itself inject a `Location` header, which would
overwrite it). -/
theorem directory_redirect_302 (cfg : Config) (fs : FileSystem) (req : Request)
    (hdot : includesChar req.path '.' = false)
    (hslash : endsWithChar req.path '/' = false)
    (hdir : fs.stat (cfg.ROOT_FOLDER ++ req.path) = .ok .dir)
    (hloc : ∀ p ∈ cfg.HEADERS, p.1 ≠ "Location") :
    (pipeline cfg fs req).status = 302 ∧
    getHeader (pipeline cfg fs req).headers "Location" = some (req.path ++ "/") := by
  obtain ⟨h1, h2, _⟩ := pipeline_redirect_case cfg fs req hdot hslash hdir hloc
  exact ⟨h1, h2⟩

/-- Witness for **C2**: `GET /sub` against a file system in which
`/root/sub` is a directory yields `302` with `Location: /sub/`. -/
theorem directory_redirect_302_witness :
    (pipeline demoCfg demoFs { path := "/sub", method := "GET", ifNoneMatch := none }).status
        = 302 ∧
    getHeader (pipeline demoCfg demoFs
        { path := "/sub", method := "GET", ifNoneMatch := none }).headers "Location"
      = some "/sub/" := by
  have h := directory_redirect_302 demoCfg demoFs
    { path := "/sub", method := "GET", ifNoneMatch := none }
    (by decide) (by decide) (by rfl)
    (by intro p hp; exact absurd hp (List.not_mem_nil p))
  exact h

/-- Counterexample to **C3** as stated.  The claim asserts that when the
directory-redirect stage issues its `302`, the remaining stages are not
invoked for that request.  In the source, however, `await next()` stands
after (outside) the redirecting `if` block and runs unconditionally.
Instantiating the remaining chain with a sentinel that sets status `999`
shows its effect on the final response of the very request that was
redirected (the `Location` header proves the redirect did fire). -/
theorem redirect_invokes_rest_counterexample :
    (directoryRedirectStage demoFs "/root" "/sub" (fun r => { r with status := 999 })
        initialResponse).status = 999 ∧
    getHeader (directoryRedirectStage demoFs "/root" "/sub"
        (fun r => { r with status := 999 }) initialResponse).headers "Location"
      = some "/sub/" := by
  exact ⟨by decide, by decide⟩

/-- Claim C3, amended: When the directory-redirect stage issues its `302`,
the remaining stages of the chain *are* still invoked for that request —
observably, the content-type stage runs afterwards and sets
`Content-Type: text/plain` on the redirect response — but the `302` status
and the `Location` header survive to the final response. -/
theorem redirect_chain_still_runs (cfg : Config) (fs : FileSystem) (req : Request)
    (hdot : includesChar req.path '.' = false)
    (hslash : endsWithChar req.path '/' = false)
    (hdir : fs.stat (cfg.ROOT_FOLDER ++ req.path) = .ok .dir)
    (hloc : ∀ p ∈ cfg.HEADERS, p.1 ≠ "Location") :
    (pipeline cfg fs req).status = 302 ∧
    getHeader (pipeline cfg fs req).headers "Location" = some (req.path ++ "/") ∧
    getHeader (pipeline cfg fs req).headers "Content-Type" = some "text/plain" :=
  pipeline_redirect_case cfg fs req hdot hslash hdir hloc

/-- Witness for the amended **C3**: the redirected `GET /sub` response also
carries the `Content-Type: text/plain` written by the (still invoked)
content-type stage. -/
theorem redirect_chain_still_runs_witness :
    (pipeline demoCfg demoFs { path := "/sub", method := "GET", ifNoneMatch := none }).status
        = 302 ∧
    getHeader (pipeline demoCfg demoFs
        { path := "/sub", method := "GET", ifNoneMatch := none }).headers "Content-Type"
      = some "text/plain" := by
  have h := redirect_chain_still_runs demoCfg demoFs
    { path := "/sub", method := "GET", ifNoneMatch := none }
    (by decide) (by decide) (by rfl)
    (by intro p hp; exact absurd hp (List.not_mem_nil p))
  exact ⟨h.1, h.2.2⟩

/-- Claim C10: For every request whose path contains a `'.'` anywhere — also
only in a parent directory segment — the directory-redirect stage neither
consults the file system (its result is independent of the file system)
nor issues a redirect: it passes the response through to the remaining
chain unchanged, even when the path names an existing directory. -/
theorem redirect_skip_on_dot (fs1 fs2 : FileSystem) (rootFolder path : String)
    (next : Response → Response) (r : Response)
    (h : includesChar path '.' = true) :
    directoryRedirectStage fs1 rootFolder path next r = next r ∧
    directoryRedirectStage fs1 rootFolder path next r =
      directoryRedirectStage fs2 rootFolder path next r := by
  have hpre : ∀ fs : FileSystem, directoryRedirectPre fs rootFolder path r = r := by
    intro fs
    unfold directoryRedirectPre
    rw [h]
    simp
  unfold directoryRedirectStage
  rw [hpre fs1, hpre fs2]
  exact ⟨rfl, rfl⟩

/-- Witness for **C10**: `/v1.2/notes` names an existing directory of the
demo file system, yet — its path containing a `'.'` in the `v1.2` segment —
the directory-redirect stage passes the response through untouched. -/
theorem redirect_skip_on_dot_witness :
    directoryRedirectStage demoFs "/root" "/v1.2/notes" (fun r => r) initialResponse
        = initialResponse ∧
    demoFs.stat ("/root" ++ "/v1.2/notes") = .ok .dir :=
  ⟨(redirect_skip_on_dot demoFs demoFs "/root" "/v1.2/notes" (fun r => r) initialResponse
      (by decide)).1, rfl⟩

/-- Counterexample to **C4** as stated.  The claim asserts that every
configured header reaches the final response with exactly the configured
value, "overwriting any value any other stage set for the same header
name".  But the header-injection stage sets the configured headers
*before* invoking the rest of the chain, and the content-type stage
post-processes after it: with `Content-Type: application/x-custom`
configured, `GET /a` (no extension, no matching file) ends with
`Content-Type: text/plain` — the injected value was overwritten by a later
stage, and the configured value is not on the final response. -/
theorem header_injection_counterexample :
    demoCfgCustomType.HEADERS = [("Content-Type", "application/x-custom")] ∧
    getHeader (pipeline demoCfgCustomType demoFs
        { path := "/a", method := "GET", ifNoneMatch := none }).headers "Content-Type"
      = some "text/plain" :=
  ⟨rfl, by decide⟩

/-- Claim C4, amended: Configured headers are set before the remaining
stages run, so they overwrite anything set earlier in the request flow and
survive to the final response — whatever the response status, 404s
included — for every configured name that no later-running stage writes:
i.e. every name other than `Content-Type` (content-type stage),
`ETag` (ETag stage) and `Content-Length` / `Last-Modified` (static-file
stage).  Configured header names are pairwise distinct, as the keys of a
JavaScript object. -/
theorem header_injection_survives (cfg : Config) (fs : FileSystem) (req : Request)
    (n v : String)
    (hmem : (n, v) ∈ cfg.HEADERS)
    (hnd : (cfg.HEADERS.map Prod.fst).Nodup)
    (h1 : n ≠ "Content-Type") (h2 : n ≠ "ETag")
    (h3 : n ≠ "Content-Length") (h4 : n ≠ "Last-Modified") :
    getHeader (pipeline cfg fs req).headers n = some v := by
  have hne : cfg.HEADERS ≠ [] := by
    intro h0
    rw [h0] at hmem
    cases hmem
  have hH : cfg.HEADERS.isEmpty = false := by
    cases hcase : cfg.HEADERS with
    | nil => exact absurd hcase hne
    | cons p t => rfl
  have hhdr : getHeader (innerResponse cfg fs req.path).headers n = some v := by
    unfold innerResponse
    rw [etagStage_getHeader _ _ h2]
    simp only [hH, Bool.false_eq_true, if_false]
    unfold headerInjectionStage
    rw [contentTypeStage_getHeader _ _ _ _ h1,
      staticFileStage_getHeader _ _ _ _ h3 h4]
    exact getHeader_setHeaders_mem cfg.HEADERS hmem hnd _
  rw [pipeline_eq]
  split
  · exact hhdr
  · exact hhdr

/-- Witness for the amended **C4**: the spec's scenario — with
`X-Test: 1` configured, the (404) response for a missing file still
carries `X-Test: 1`. -/
theorem header_injection_survives_witness :
    getHeader (pipeline demoCfgXTest demoFs
        { path := "/missing", method := "GET", ifNoneMatch := none }).headers "X-Test"
      = some "1" ∧
    (pipeline demoCfgXTest demoFs
        { path := "/missing", method := "GET", ifNoneMatch := none }).status = 404 :=
  ⟨header_injection_survives demoCfgXTest demoFs
      { path := "/missing", method := "GET", ifNoneMatch := none } "X-Test" "1"
      (by decide) (by decide) (by decide) (by decide) (by decide) (by decide),
   by decide⟩

/-- Claim C9: Conditional-GET idempotence: when a `GET` request yields a
`200` response carrying an `ETag`, repeating the same request against an
unchanged resource (same file system) with `If-None-Match` set to that
`ETag` yields `304` with no body. -/
theorem conditional_get_304 (cfg : Config) (fs : FileSystem) (req : Request) (e : String)
    (hm : req.method = "GET")
    (h200 : (pipeline cfg fs req).status = 200)
    (htag : getHeader (pipeline cfg fs req).headers "ETag" = some e) :
    (pipeline cfg fs { req with ifNoneMatch := some e }).status = 304 ∧
    (pipeline cfg fs { req with ifNoneMatch := some e }).body = none := by
  rw [pipeline_eq] at h200 htag
  by_cases hf : freshCheck req (innerResponse cfg fs req.path) = true
  · rw [if_pos hf] at h200
    simp at h200
  · rw [if_neg hf] at h200 htag
    rw [pipeline_eq]
    have hfresh2 : freshCheck { req with ifNoneMatch := some e }
        (innerResponse cfg fs ({ req with ifNoneMatch := some e } : Request).path) = true := by
      show freshCheck { req with ifNoneMatch := some e }
        (innerResponse cfg fs req.path) = true
      unfold freshCheck
      simp [hm, h200, htag]
    rw [if_pos hfresh2]
    exact ⟨rfl, rfl⟩

/-- Witness for **C9**: `GET /file.txt` yields `200` with
`ETag: "5-hello"`; repeating it with that validator yields `304` and an
empty body. -/
theorem conditional_get_304_witness :
    (pipeline demoCfg demoFs
        { path := "/file.txt", method := "GET", ifNoneMatch := some "\"5-hello\"" }).status
      = 304 ∧
    (pipeline demoCfg demoFs
        { path := "/file.txt", method := "GET", ifNoneMatch := some "\"5-hello\"" }).body
      = none := by
  have h := conditional_get_304 demoCfg demoFs
    { path := "/file.txt", method := "GET", ifNoneMatch := none } "\"5-hello\""
    rfl (by decide) (by decide)
  exact h

/-- Claim C5: `validatePortNumber` accepts a number `p` (returning it) if and
only if `p = 80`, `p = 443`, or `1024 ≤ p ≤ 65535`; every other number and
every non-number input yields `null`. -/
theorem validatePortNumber_spec :
    (∀ q : ℚ, validatePortNumber (.vnum q) = some q ↔
        (q = 80 ∨ q = 443 ∨ (1024 ≤ q ∧ q ≤ 65535))) ∧
    (∀ q : ℚ, ¬(q = 80 ∨ q = 443 ∨ (1024 ≤ q ∧ q ≤ 65535)) →
        validatePortNumber (.vnum q) = none) ∧
    (∀ v : JSValue, (∀ q : ℚ, v ≠ .vnum q) → validatePortNumber v = none) := by
  refine ⟨?_, ?_, ?_⟩
  · intro q
    by_cases h : q = 80 ∨ q = 443 ∨ (1024 ≤ q ∧ q ≤ 65535) <;>
      simp [validatePortNumber, h]
  · intro q h
    simp [validatePortNumber, h]
  · intro v h
    cases v with
    | vnum q => exact absurd rfl (h q)
    | vstr s => rfl
    | vbool b => rfl
    | vnull => rfl
    | vundefined => rfl
    | vobj es => rfl

/-- Witness for **C5**: `8080` is accepted, `1000` and the string `"8080"`
are rejected. -/
theorem validatePortNumber_spec_witness :
    validatePortNumber (.vnum 8080) = some 8080 ∧
    validatePortNumber (.vnum 1000) = none ∧
    validatePortNumber (.vstr "8080") = none :=
  ⟨(validatePortNumber_spec.1 8080).mpr (by norm_num),
   validatePortNumber_spec.2.1 1000 (by
      rintro (h | h | hh)
      · norm_num at h
      · norm_num at h
      · exact absurd hh.1 (by norm_num)),
   validatePortNumber_spec.2.2 _ (fun q h => JSValue.noConfusion h)⟩

/-- Claim C6: The server is constructed as a TLS (`https`) server if and only
if all three certificate parts are non-`null`; a single missing part gives
a plain HTTP server. -/
theorem https_enabled_iff (privateKey certificateSigningRequest certificate : Option String) :
    createdServer privateKey certificateSigningRequest certificate = .httpsServer ↔
      (privateKey ≠ none ∧ certificateSigningRequest ≠ none ∧ certificate ≠ none) := by
  cases privateKey <;> cases certificateSigningRequest <;> cases certificate <;>
    simp [createdServer, httpsEnabled]

/-- Counterexample to **C7** as stated.  The claim asserts that whenever
*any* of the three reads fails with `ENOENT`, the function returns the
all-`null` bundle without raising.  But the `try`/`catch` around
`Promise.all` handles only the single surfaced rejection: when the key
read fails with `EACCES` while the certificate-signing-request read fails
with `ENOENT`, the caught error is the `EACCES` one and it is rethrown —
even though a read did fail with `ENOENT`. -/
theorem readCertificates_counterexample :
    readCertificates (.error ⟨"EACCES"⟩) (.error ⟨"ENOENT"⟩) (.ok "certificate")
      = .error ⟨"EACCES"⟩ := rfl

/-- Claim C7, amended: `readCertificates` is governed by the single error
surfaced by `Promise.all` (the first failing read): if that error's code
is `ENOENT`, the function consumes it and returns the all-`null` bundle;
for any other code it rethrows that error; and when all three reads
succeed it returns the populated bundle. -/
theorem readCertificates_spec (keyRead csrRead crtRead : Except IOErr String) :
    (∀ e : IOErr, firstError3 keyRead csrRead crtRead = some e →
        (e.code = "ENOENT" → readCertificates keyRead csrRead crtRead =
            .ok { certificate := none, certificateSigningRequest := none,
                  privateKey := none }) ∧
        (e.code ≠ "ENOENT" → readCertificates keyRead csrRead crtRead = .error e)) ∧
    (∀ privateKey csr cert : String, keyRead = .ok privateKey → csrRead = .ok csr →
        crtRead = .ok cert →
        readCertificates keyRead csrRead crtRead =
          .ok { certificate := some cert, certificateSigningRequest := some csr,
                privateKey := some privateKey }) := by
  constructor
  · intro e he
    refine ⟨fun hcode => ?_, fun hcode => ?_⟩ <;>
      cases keyRead <;> cases csrRead <;> cases crtRead <;>
        simp_all [firstError3, readCertificates]
  · intro privateKey csr cert hk hc hr
    subst hk
    subst hc
    subst hr
    rfl

/-- Witness for the amended **C7**: all-`ENOENT` yields the all-`null`
bundle, a leading `EACCES` is rethrown, and three successful reads yield
the populated bundle. -/
theorem readCertificates_spec_witness :
    readCertificates (.error ⟨"ENOENT"⟩) (.error ⟨"ENOENT"⟩) (.error ⟨"ENOENT"⟩)
      = .ok { certificate := none, certificateSigningRequest := none, privateKey := none } ∧
    readCertificates (.error ⟨"EACCES"⟩) (.ok "b") (.ok "c") = .error ⟨"EACCES"⟩ ∧
    readCertificates (.ok "a") (.ok "b") (.ok "c")
      = .ok { certificate := some "c", certificateSigningRequest := some "b",
              privateKey := some "a" } :=
  ⟨((readCertificates_spec (.error ⟨"ENOENT"⟩) (.error ⟨"ENOENT"⟩)
        (.error ⟨"ENOENT"⟩)).1 ⟨"ENOENT"⟩ rfl).1 rfl,
   ((readCertificates_spec (.error ⟨"EACCES"⟩) (.ok "b") (.ok "c")).1
        ⟨"EACCES"⟩ rfl).2 (by decide),
   (readCertificates_spec (.ok "a") (.ok "b") (.ok "c")).2 "a" "b" "c" rfl rfl rfl⟩

theorem orElse_getD_first {α : Type} {a b : Option α} {d x : α} (h : a = some x) :
    ((a.orElse fun _ => b).getD d) = x := by
  subst h
  rfl

theorem orElse_getD_second {α : Type} {a b : Option α} {d x : α} (ha : a = none)
    (hb : b = some x) : ((a.orElse fun _ => b).getD d) = x := by
  subst ha
  subst hb
  rfl

theorem orElse_getD_default {α : Type} {a b : Option α} {d : α} (ha : a = none)
    (hb : b = none) : ((a.orElse fun _ => b).getD d) = d := by
  subst ha
  subst hb
  rfl

/-- Claim C8: Per configuration field, independently: the resolved value is
the (validated) command-line value when one is provided and valid,
otherwise the (validated) config-file value when provided and valid,
otherwise the built-in default — a value a validator rejects is `none` and
falls through to the next precedence level (resolution is a total
function, so no such value aborts startup).  The root folder additionally
passes through `path.resolve`. -/
theorem configuration_precedence
    (cwd : String) (rootArg hostArg certArg portParsed headersParsed mediaTypesParsed : JSValue)
    (fileParsed : Option JSValue) (nodeEnv : Option String) :
    let cmd := readConfigurationFromCommandLineArguments rootArg hostArg certArg
      portParsed headersParsed mediaTypesParsed
    let file := readConfigurationFromFile fileParsed
    let cfg := getConfiguration cwd cmd file nodeEnv
    ((∀ x, cmd.CERTIFICATE_NAME = some x → cfg.CERTIFICATE_NAME = x) ∧
     (∀ x, cmd.CERTIFICATE_NAME = none → file.bind RawConfig.CERTIFICATE_NAME = some x →
        cfg.CERTIFICATE_NAME = x) ∧
     (cmd.CERTIFICATE_NAME = none → file.bind RawConfig.CERTIFICATE_NAME = none →
        cfg.CERTIFICATE_NAME = DEFAULTS.CERTIFICATE_NAME)) ∧
    ((∀ x, cmd.HOST_NAME = some x → cfg.HOST_NAME = x) ∧
     (∀ x, cmd.HOST_NAME = none → file.bind RawConfig.HOST_NAME = some x →
        cfg.HOST_NAME = x) ∧
     (cmd.HOST_NAME = none → file.bind RawConfig.HOST_NAME = none →
        cfg.HOST_NAME = DEFAULTS.HOST_NAME)) ∧
    ((∀ x, cmd.PORT_NUMBER = some x → cfg.PORT_NUMBER = x) ∧
     (∀ x, cmd.PORT_NUMBER = none → file.bind RawConfig.PORT_NUMBER = some x →
        cfg.PORT_NUMBER = x) ∧
     (cmd.PORT_NUMBER = none → file.bind RawConfig.PORT_NUMBER = none →
        cfg.PORT_NUMBER = DEFAULTS.PORT_NUMBER)) ∧
    ((∀ x, cmd.HEADERS = some x → cfg.HEADERS = x) ∧
     (∀ x, cmd.HEADERS = none → file.bind RawConfig.HEADERS = some x → cfg.HEADERS = x) ∧
     (cmd.HEADERS = none → file.bind RawConfig.HEADERS = none →
        cfg.HEADERS = DEFAULTS.HEADERS)) ∧
    ((∀ x, cmd.FILE_NAME_EXTENSION_MEDIA_TYPES = some x →
        cfg.FILE_NAME_EXTENSION_MEDIA_TYPES = x) ∧
     (∀ x, cmd.FILE_NAME_EXTENSION_MEDIA_TYPES = none →
        file.bind RawConfig.FILE_NAME_EXTENSION_MEDIA_TYPES = some x →
        cfg.FILE_NAME_EXTENSION_MEDIA_TYPES = x) ∧
     (cmd.FILE_NAME_EXTENSION_MEDIA_TYPES = none →
        file.bind RawConfig.FILE_NAME_EXTENSION_MEDIA_TYPES = none →
        cfg.FILE_NAME_EXTENSION_MEDIA_TYPES = DEFAULTS.FILE_NAME_EXTENSION_MEDIA_TYPES)) ∧
    ((∀ x, cmd.ROOT_FOLDER = some x → cfg.ROOT_FOLDER = pathResolve cwd x) ∧
     (∀ x, cmd.ROOT_FOLDER = none → file.bind RawConfig.ROOT_FOLDER = some x →
        cfg.ROOT_FOLDER = pathResolve cwd x) ∧
     (cmd.ROOT_FOLDER = none → file.bind RawConfig.ROOT_FOLDER = none →
        cfg.ROOT_FOLDER = pathResolve cwd DEFAULTS.ROOT_FOLDER)) := by
  intro cmd file cfg
  refine ⟨⟨?_, ?_, ?_⟩, ⟨?_, ?_, ?_⟩, ⟨?_, ?_, ?_⟩, ⟨?_, ?_, ?_⟩, ⟨?_, ?_, ?_⟩,
    ⟨?_, ?_, ?_⟩⟩
  · exact fun x h => orElse_getD_first h
  · exact fun x ha hb => orElse_getD_second ha hb
  · exact fun ha hb => orElse_getD_default ha hb
  · exact fun x h => orElse_getD_first h
  · exact fun x ha hb => orElse_getD_second ha hb
  · exact fun ha hb => orElse_getD_default ha hb
  · exact fun x h => orElse_getD_first h
  · exact fun x ha hb => orElse_getD_second ha hb
  · exact fun ha hb => orElse_getD_default ha hb
  · exact fun x h => orElse_getD_first h
  · exact fun x ha hb => orElse_getD_second ha hb
  · exact fun ha hb => orElse_getD_default ha hb
  · exact fun x h => orElse_getD_first h
  · exact fun x ha hb => orElse_getD_second ha hb
  · exact fun ha hb => orElse_getD_default ha hb
  · exact fun x h => congrArg (pathResolve cwd) (orElse_getD_first h)
  · exact fun x ha hb => congrArg (pathResolve cwd) (orElse_getD_second ha hb)
  · exact fun ha hb => congrArg (pathResolve cwd) (orElse_getD_default ha hb)

/-- Witness for **C8**: a command line providing a certificate name and an
out-of-range port (`99999`), with a config file providing only a host
name — the certificate name comes from the command line, the host name
from the file, and the invalid port falls through to the default `8020`. -/
theorem configuration_precedence_witness :
    (getConfiguration "/cwd"
        (readConfigurationFromCommandLineArguments (.vstr ".") .vundefined (.vstr "clicert")
          (.vnum 99999) .vundefined .vundefined)
        (readConfigurationFromFile demoFileParsed) none).CERTIFICATE_NAME = "clicert" ∧
    (getConfiguration "/cwd"
        (readConfigurationFromCommandLineArguments (.vstr ".") .vundefined (.vstr "clicert")
          (.vnum 99999) .vundefined .vundefined)
        (readConfigurationFromFile demoFileParsed) none).HOST_NAME = "filehost" ∧
    (getConfiguration "/cwd"
        (readConfigurationFromCommandLineArguments (.vstr ".") .vundefined (.vstr "clicert")
          (.vnum 99999) .vundefined .vundefined)
        (readConfigurationFromFile demoFileParsed) none).PORT_NUMBER = 8020 :=
  ⟨(configuration_precedence "/cwd" (.vstr ".") .vundefined (.vstr "clicert")
      (.vnum 99999) .vundefined .vundefined demoFileParsed none).1.1 "clicert" (by decide),
   (configuration_precedence "/cwd" (.vstr ".") .vundefined (.vstr "clicert")
      (.vnum 99999) .vundefined .vundefined demoFileParsed none).2.1.2.1 "filehost"
      rfl (by decide),
   (configuration_precedence "/cwd" (.vstr ".") .vundefined (.vstr "clicert")
      (.vnum 99999) .vundefined .vundefined demoFileParsed none).2.2.1.2.2
      (by decide) rfl⟩

end StaticServer
